import Mathlib

/-!
Verification model of `src/crash/commands/files.py` from the py-crash
repository: the `files` crash-style command plugin.

The module is a thin command shim: at import time it looks up the gdb
`char` pointer type, defines `FilesCommand` (a subclass of the external
`CrashCommand`), and instantiates it once, which registers the command
under the name "files".  `FilesCommand.__init__` configures a Python
`argparse.ArgumentParser` with options `-d` (nargs=1), `-R` (nargs=1)
and a positional `args` with `nargs=argparse.REMAINDER`, and overrides
`format_usage` with a constant lambda.  `FilesCommand.execute` assigns a
format string `vaddrfmt` and then builds a header string whose width
argument is the bare name `sz`, which is bound nowhere (not a local, not
a module global, not a Python builtin), so every call raises `NameError`
before printing anything.

The embedding below models:
  * the CPython `argparse` parsing algorithm specialised to exactly this
    parser configuration (options `-d`, `-R`, auto-added `-h`/`--help`,
    one REMAINDER positional, prefix character `-`), including token
    classification (`_parse_optional`), `=`-attached and short-attached
    option values, the negative-number rule, `--` handling, REMAINDER
    greediness from the first positional-looking token, unrecognized
    option-like tokens, and missing option values;
  * Python name resolution for the body of `execute` (locals, then the
    module globals, then the builtins);
  * the top-level statements of the module executed in import order,
    with the gdb type lookup as the fallible step.
-/

namespace PyCrashFiles

/-! ## Token classification (argparse `_parse_optional`) -/

/-- The option actions registered on the `files` parser: `-d` and `-R`
from `FilesCommand.__init__`, and the help action that
`argparse.ArgumentParser` adds by default. -/
inductive KnownOpt where
  | dOpt
  | ROpt
  | help
deriving DecidableEq, Repr

/-- How argparse classifies one command-line token: a positional-looking
token (pattern character `A`), the first bare `--`, a known option with
an optional attached explicit value, or an option-like token that
matches no registered option. -/
inductive TokClass where
  | pos
  | dd
  | optKnown : KnownOpt → Option String → TokClass
  | optUnknown
deriving DecidableEq, Repr

/-- True when the token begins with the parser prefix character `-`
(argparse checks `arg_string[0] in self.prefix_chars`; the empty string
is not option-like). -/
def startsWithDash (s : String) : Bool :=
  match s.data with
  | [] => false
  | c :: _ => c = '-'

/-- Exact lookup in the parser option-string table
`{-d, -R, -h, --help}`. -/
def exactOpt (s : String) : Option KnownOpt :=
  if s = "-d" then some KnownOpt.dOpt
  else if s = "-R" then some KnownOpt.ROpt
  else if s = "-h" then some KnownOpt.help
  else if s = "--help" then some KnownOpt.help
  else none

/-- Split a character list at its first `=`, like Python
`arg_string.split("=", 1)` when an `=` is present. -/
def splitFirstEq : List Char → Option (List Char × List Char)
  | [] => none
  | c :: cs =>
    if c = '=' then some ([], cs)
    else (splitFirstEq cs).map (fun p => (c :: p.1, p.2))

/-- The `=`-form check of argparse `_parse_optional`: `opt=value` where
`opt` is exactly one of the registered option strings. -/
def eqFormOpt (l : List Char) : Option TokClass :=
  match splitFirstEq l with
  | some (pre, post) =>
    match exactOpt (String.mk pre) with
    | some k => some (TokClass.optKnown k (some (String.mk post)))
    | none => none
  | none => none

/-- argparse `_get_option_tuples` for this parser: long-option prefixes
of `--help` (with or without `=value`), and single-dash tokens whose
first two characters are a registered short option with the rest as an
attached explicit value. -/
def optTuples (l : List Char) : Option TokClass :=
  match l with
  | '-' :: '-' :: _ =>
    (match splitFirstEq l with
     | some (pre, post) =>
       if pre.isPrefixOf ("--help".data) then
         some (TokClass.optKnown KnownOpt.help (some (String.mk post)))
       else none
     | none =>
       if l.isPrefixOf ("--help".data) then
         some (TokClass.optKnown KnownOpt.help none)
       else none)
  | '-' :: c :: rest =>
    (match exactOpt (String.mk ['-', c]) with
     | some k => some (TokClass.optKnown k (some (String.mk rest)))
     | none => none)
  | _ => none

/-- argparse `_negative_number_matcher`: `-\d+` or `-\d*\.\d+`.  Since
no registered option string looks like a negative number, such tokens
are positionals. -/
def isNegativeNumber (l : List Char) : Bool :=
  match l with
  | '-' :: rest =>
    (decide (rest ≠ []) && rest.all Char.isDigit) ||
    (match rest.span Char.isDigit with
     | (_, '.' :: fs) => decide (fs ≠ []) && fs.all Char.isDigit
     | _ => false)
  | _ => false

/-- Classification of a single token by argparse `_parse_optional`,
specialised to the `files` parser: tokens not starting with `-`, the
bare `-`, negative numbers, and tokens containing a space are
positionals; otherwise an exact, `=`-attached, abbreviated-long or
short-attached match against `{-d, -R, -h, --help}` yields a known
option, and any other `-`-leading token is an unknown optional. -/
def classifyTok (s : String) : TokClass :=
  if startsWithDash s = false then TokClass.pos
  else
    match exactOpt s with
    | some k => TokClass.optKnown k none
    | none =>
      if s.data.length = 1 then TokClass.pos
      else
        match eqFormOpt s.data with
        | some c => c
        | none =>
          match optTuples s.data with
          | some c => c
          | none =>
            if isNegativeNumber s.data then TokClass.pos
            else if s.data.contains ' ' then TokClass.pos
            else TokClass.optUnknown

/-- Classify a whole argument vector, marking the first bare `--` and
forcing every later token to be positional, exactly as the pattern
string is built in argparse `_parse_known_args`. -/
def classifyTokens : List String → Bool → List (String × TokClass)
  | [], _ => []
  | t :: ts, true => (t, TokClass.pos) :: classifyTokens ts true
  | t :: ts, false =>
    if t = "--" then (t, TokClass.dd) :: classifyTokens ts true
    else (t, classifyTok t) :: classifyTokens ts false

/-! ## The parse loop (argparse `_parse_known_args`) -/

/-- The result namespace of a successful parse: `d` and `R` hold the
last value given for the option (argparse stores `nargs=1` values as
one-element lists; we keep the single string), and `args` is the
REMAINDER positional. -/
structure ParsedFiles where
  d : Option String
  R : Option String
  args : List String
deriving DecidableEq, Repr

/-- Outcome of `parser.parse_args`: a namespace, an error exit
(`SystemExit(2)` via `parser.error`), or the help action exit
(`SystemExit(0)`). -/
inductive ParseOutcome where
  | success : ParsedFiles → ParseOutcome
  | error : String → ParseOutcome
  | helpExit : ParseOutcome
deriving DecidableEq, Repr

/-- Mutable state of the parse loop: option values seen so far and the
unrecognized option-like tokens collected as extras. -/
structure LoopSt where
  d : Option String
  R : Option String
  extras : List String
deriving DecidableEq, Repr

/-- End of parsing: the REMAINDER positional receives every remaining
raw token (argparse does not strip `--` for REMAINDER), and
`parse_args` errors out if any unrecognized option-like token was
collected. -/
def finishParse (st : LoopSt) (rem : List String) : ParseOutcome :=
  if st.extras.isEmpty then
    ParseOutcome.success { d := st.d, R := st.R, args := rem }
  else ParseOutcome.error "unrecognized arguments"

/-- The main consumption loop of argparse `_parse_known_args`
specialised to this parser: options are consumed while they appear
before any positional-looking token; the first positional (or `--`)
hands everything that remains to the REMAINDER positional; `-d`/`-R`
without an attached value require the next token to be classified as a
positional (for optionals the nargs pattern is `(A)`), else the parser
errors with "expected 1 argument"; the help action exits immediately;
a help option with an attached value is rejected; unknown option-like
tokens are collected and reported at the end. -/
def mainLoop (st : LoopSt) : List (String × TokClass) → ParseOutcome
  | [] => finishParse st []
  | (t, TokClass.pos) :: rest => finishParse st (t :: rest.map Prod.fst)
  | (t, TokClass.dd) :: rest => finishParse st (t :: rest.map Prod.fst)
  | (_, TokClass.optKnown KnownOpt.help none) :: _ => ParseOutcome.helpExit
  | (_, TokClass.optKnown KnownOpt.help (some _)) :: _ =>
    ParseOutcome.error "ignored explicit argument"
  | (_, TokClass.optKnown KnownOpt.dOpt none) :: rest =>
    (match rest with
     | (v, TokClass.pos) :: rest2 => mainLoop { st with d := some v } rest2
     | _ => ParseOutcome.error "argument -d: expected 1 argument")
  | (_, TokClass.optKnown KnownOpt.dOpt (some ex)) :: rest =>
    mainLoop { st with d := some ex } rest
  | (_, TokClass.optKnown KnownOpt.ROpt none) :: rest =>
    (match rest with
     | (v, TokClass.pos) :: rest2 => mainLoop { st with R := some v } rest2
     | _ => ParseOutcome.error "argument -R: expected 1 argument")
  | (_, TokClass.optKnown KnownOpt.ROpt (some ex)) :: rest =>
    mainLoop { st with R := some ex } rest
  | (t, TokClass.optUnknown) :: rest =>
    mainLoop { st with extras := st.extras ++ [t] } rest

/-- `parse_args` of the parser built in `FilesCommand.__init__`:
`ArgumentParser(prog="files")` with `-d` (nargs=1), `-R` (nargs=1) and
`args` (nargs=REMAINDER). -/
def filesParseArgs (argv : List String) : ParseOutcome :=
  mainLoop { d := none, R := none, extras := [] } (classifyTokens argv false)

/-- The argument vector contributed by one optional flag: absent, or
the flag string followed by exactly one value. -/
def optFlagTokens (flag : String) : Option String → List String
  | none => []
  | some v => [flag, v]

/-! ## The parser state and the overridden `format_usage` -/

/-- State of the `argparse.ArgumentParser` instance built in
`FilesCommand.__init__`.  `prog` is the program name it was constructed
with and `parsedHistory` records the argument vectors of prior
`parse_args` calls, so that two parser states can differ in every way
that parsing can observe. -/
structure ArgumentParserState where
  prog : String
  parsedHistory : List (List String)
deriving DecidableEq, Repr

/-- The usage string installed in `FilesCommand.__init__` by
`parser.format_usage = lambda : "files [-d dentry] | [-R reference] [pid | taskp] ...\n"`. -/
def filesUsageString : String :=
  "files [-d dentry] | [-R reference] [pid | taskp] ...\n"

/-- The overridden `format_usage`: the lambda takes no argument and
closes over nothing, so as a method of the parser it ignores the whole
parser state and returns the constant `filesUsageString`. -/
def format_usage (_ps : ArgumentParserState) : String :=
  filesUsageString

/-! ## Module import (top-level statements of files.py) -/

/-- One top-level statement of `files.py`, in source order: the four
imports, the assignment `charp = gdb.lookup_type("char").pointer()`,
the `class FilesCommand(CrashCommand)` definition, and the trailing
`FilesCommand()` instantiation. -/
inductive TopStmt where
  | importBind : String → TopStmt
  | assignCharp : TopStmt
  | defineClass : TopStmt
  | instantiateRegister : TopStmt
deriving DecidableEq, Repr

/-- State of a (partial) import of the module: the names bound in the
module namespace so far, the command names registered with the host
runtime so far, and the exception that aborted the import, if any. -/
structure ModuleState where
  bound : List String
  registry : List String
  failed : Option String
deriving DecidableEq, Repr

/-- Modelled from the spec: the `CrashCommand` base constructor lives in
the `crashcommand` module, which is not present under `src/`; the spec
describes this file as a command-plugin that "only calls into that
runtime and is explicitly designed to be imported by it", so the base
constructor called as `CrashCommand.__init__(self, "files", parser)` is
modelled as registering the command under the given name with the host
runtime. -/
def crashCommandRegister (registry : List String) (name : String) : List String :=
  registry ++ [name]

/-- Execute one top-level statement.  A statement runs only if no
earlier statement raised; `assignCharp` is the fallible step, raising
when the host gdb cannot resolve the `char` type. -/
def stepTop (charLookupOk : Bool) (st : ModuleState) : TopStmt → ModuleState
  | TopStmt.importBind n =>
    if st.failed.isSome then st else { st with bound := st.bound ++ [n] }
  | TopStmt.assignCharp =>
    if st.failed.isSome then st
    else if charLookupOk then { st with bound := st.bound ++ ["charp"] }
    else { st with failed := some "gdb.error: No type named char." }
  | TopStmt.defineClass =>
    if st.failed.isSome then st
    else { st with bound := st.bound ++ ["FilesCommand"] }
  | TopStmt.instantiateRegister =>
    if st.failed.isSome then st
    else { st with registry := crashCommandRegister st.registry "files" }

/-- The top-level statements of `files.py` in source order: `import
gdb`, `from crashcommand import CrashCommand`, `import argparse`,
`from crash.cache.syms import get_value`, the `charp` assignment, the
class definition, and the module-level `FilesCommand()` call. -/
def filesModuleBody : List TopStmt :=
  [TopStmt.importBind "gdb", TopStmt.importBind "CrashCommand",
   TopStmt.importBind "argparse", TopStmt.importBind "get_value",
   TopStmt.assignCharp, TopStmt.defineClass, TopStmt.instantiateRegister]

/-- Import the module: run the top-level statements in order starting
from an empty module namespace and an empty host registry. -/
def runFilesModule (charLookupOk : Bool) : ModuleState :=
  filesModuleBody.foldl (stepTop charLookupOk)
    { bound := [], registry := [], failed := none }

/-- The module global namespace after a successful import, used by name
resolution inside `execute`. -/
def filesModuleGlobals : List String :=
  (runFilesModule true).bound

/-! ## `FilesCommand.execute` -/

/-- A representative finite fragment of the Python builtin namespace.
Name resolution in `execute` only needs that `sz` is not a builtin,
which is true of the full builtin namespace of every CPython release. -/
def pyBuiltinNames : List String :=
  ["print", "len", "range", "str", "int", "float", "repr", "format",
   "object", "type", "super", "isinstance", "getattr", "setattr",
   "open", "list", "dict", "tuple", "set", "id", "hash", "iter",
   "next", "map", "filter", "zip", "enumerate", "sorted", "min",
   "max", "sum", "abs", "Exception", "BaseException", "NameError",
   "AttributeError", "TypeError", "ValueError", "KeyError"]

/-- Python name resolution for a bare name in a function body: the
local scope, then the module globals, then the builtins. -/
def resolveName (locals : List String) (globals : List String) (n : String) : Bool :=
  locals.contains n || globals.contains n || pyBuiltinNames.contains n

/-- A Python exception raised by the modelled code. -/
inductive PyExc where
  | nameError : String → PyExc
deriving DecidableEq, Repr

/-- The state of a `FilesCommand` instance after `__init__`: the
command name passed to the base constructor and the usage text its
parser reports.  `execute` never assigns to `self`, so this is the
whole mutable state the command object exposes. -/
structure FilesCommandState where
  name : String
  usageText : String
deriving DecidableEq, Repr

/-- `FilesCommand.__init__`: builds the parser (modelled by
`filesParseArgs` and `format_usage`) and hands the name "files" to the
base constructor. -/
def FilesCommand.init : FilesCommandState :=
  { name := "files", usageText := filesUsageString }

/-- The literal bound to `vaddrfmt` by the first statement of
`execute` (the Python format string with braces). -/
def vaddrfmtLit : String := "\x7b1:^\x7b0\x7d\x7d"

/-- `FilesCommand.execute(self, argv)` as written in the source: it
binds `vaddrfmt`, then builds `files_header` from
`vaddrfmt.format(sz, "FILE")` (and likewise for `"DENTRY"` and
`"INODE"`), where `sz` is a bare name; the body contains no other
statement — in particular no `print` — and never assigns to `self`.
The result is the call outcome, the list of printed lines, and the
state of the command object after the call. -/
def FilesCommand.execute (st : FilesCommandState) (_argv : List String) :
    Except PyExc Unit × List String × FilesCommandState :=
  -- the local scope of the method body holds the parameters
  let locals0 : List String := ["self", "argv"]
  -- vaddrfmt = "{1:^{0}}"
  let locals1 : List String := "vaddrfmt" :: locals0
  -- files_header = " FD %s %s %s TYPE PATH" % (vaddrfmt.format(sz, ...), ...)
  -- evaluating the right-hand side looks up the bare name sz
  if resolveName locals1 filesModuleGlobals "sz" then
    -- unreachable in the program: sz is bound nowhere; if it were, the
    -- header string would be bound locally and discarded, and the body
    -- would fall off the end printing nothing
    (Except.ok (), [], st)
  else
    (Except.error (PyExc.nameError "sz"), [], st)

/-! ## Helper lemmas about the parser model -/

theorem classifyTok_pos (t : String) (h : startsWithDash t = false) :
    classifyTok t = TokClass.pos := by
  simp [classifyTok, h]

theorem classifyTokens_map_fst (l : List String) (b : Bool) :
    (classifyTokens l b).map Prod.fst = l := by
  induction l generalizing b with
  | nil => cases b <;> rfl
  | cons t ts ih =>
    cases b with
    | true => simp [classifyTokens, ih]
    | false =>
      by_cases ht : t = "--" <;> simp [classifyTokens, ht, ih]

theorem classifyTokens_cons_pos (t : String) (ts : List String)
    (h : startsWithDash t = false) :
    classifyTokens (t :: ts) false = (t, TokClass.pos) :: classifyTokens ts false := by
  have hne : t ≠ "--" := by
    intro he
    exact absurd (he ▸ h) (by decide)
  simp [classifyTokens, hne, classifyTok_pos t h]

theorem classifyTokens_cons_dflag (ts : List String) :
    classifyTokens ("-d" :: ts) false =
      ("-d", TokClass.optKnown KnownOpt.dOpt none) :: classifyTokens ts false := rfl

theorem classifyTokens_cons_Rflag (ts : List String) :
    classifyTokens ("-R" :: ts) false =
      ("-R", TokClass.optKnown KnownOpt.ROpt none) :: classifyTokens ts false := rfl

theorem mainLoop_success_tail (st : LoopSt) (hx : st.extras = [])
    (rest : List String)
    (hrest : ∀ t ts, rest = t :: ts → startsWithDash t = false) :
    mainLoop st (classifyTokens rest false) =
      ParseOutcome.success { d := st.d, R := st.R, args := rest } := by
  cases rest with
  | nil => simp [classifyTokens, mainLoop, finishParse, hx]
  | cons t ts =>
    rw [classifyTokens_cons_pos t ts (hrest t ts rfl)]
    simp [mainLoop, finishParse, hx, classifyTokens_map_fst]

/-! ## Claim theorems -/

/-- Claim C1 (code bug): the claim says that with no `-d`/`-R` and zero
or more pid/taskp arguments `FilesCommand.execute` renders a listing
with an `FD FILE DENTRY INODE TYPE PATH` header and one row per open
file descriptor; evaluating the code at the empty argument vector shows
the call instead raises `NameError` on the unbound name `sz` and prints
nothing. -/
theorem files_execute_no_listing :
    FilesCommand.execute FilesCommand.init [] =
      (Except.error (PyExc.nameError "sz"), [], FilesCommand.init) := rfl

/-- Claim C2: for every command state and every argument vector,
`FilesCommand.execute` raises `NameError` on the name `sz`, prints no
line, and leaves the command object state unchanged. -/
theorem files_execute_always_name_error
    (st : FilesCommandState) (argv : List String) :
    FilesCommand.execute st argv =
      (Except.error (PyExc.nameError "sz"), [], st) := rfl

/-- Claim C3 (code bug): the claim says `files -d <dentry>` resolves
the dentry address and displays its inode, super block, file type and
pathname; the parser does accept `-d f745fd60`, but evaluating
`execute` there shows the call raises `NameError` on `sz` and displays
nothing. -/
theorem files_d_option_displays_nothing :
    filesParseArgs ["-d", "f745fd60"] =
      ParseOutcome.success { d := some "f745fd60", R := none, args := [] } ∧
    FilesCommand.execute FilesCommand.init ["-d", "f745fd60"] =
      (Except.error (PyExc.nameError "sz"), [], FilesCommand.init) :=
  ⟨by decide, rfl⟩

/-- Claim C4 (code bug): the claim says `files -R <reference>` searches
all process contexts for references to the argument and prints the
matching entries; the parser does accept `-R pts/4`, but evaluating
`execute` there shows the call raises `NameError` on `sz` and prints
nothing. -/
theorem files_R_option_prints_nothing :
    filesParseArgs ["-R", "pts/4"] =
      ParseOutcome.success { d := none, R := some "pts/4", args := [] } ∧
    FilesCommand.execute FilesCommand.init ["-R", "pts/4"] =
      (Except.error (PyExc.nameError "sz"), [], FilesCommand.init) :=
  ⟨by decide, rfl⟩

/-- Claim C5, counterexample: the vector `-d -foo` has the claimed
shape (an optional `-d` consuming exactly one value, no `-R`, no
positionals), yet the parser rejects it — argparse never consumes an
option-like token as the value of `-d`, so it errors with
"expected 1 argument" instead of parsing without error. -/
theorem files_parse_claim_counterexample :
    filesParseArgs (optFlagTokens "-d" (some "-foo") ++
        optFlagTokens "-R" none ++ []) =
      ParseOutcome.error "argument -d: expected 1 argument" := by decide

/-- Claim C5, amended: an argument vector made of an optional `-d`
with one value, then an optional `-R` with one value, then the
remaining positional arguments parses without error — and yields
exactly those option values and positionals — provided the flag values
and the first positional do not begin with the option prefix character
`-`. -/
theorem files_parse_accepts_shape
    (dval Rval : Option String) (rest : List String)
    (hd : ∀ v, dval = some v → startsWithDash v = false)
    (hR : ∀ v, Rval = some v → startsWithDash v = false)
    (hrest : ∀ t ts, rest = t :: ts → startsWithDash t = false) :
    filesParseArgs (optFlagTokens "-d" dval ++ optFlagTokens "-R" Rval ++ rest) =
      ParseOutcome.success { d := dval, R := Rval, args := rest } := by
  cases dval with
  | none =>
    cases Rval with
    | none =>
      simp only [optFlagTokens, List.nil_append]
      exact mainLoop_success_tail { d := none, R := none, extras := [] } rfl rest hrest
    | some rv =>
      simp only [optFlagTokens, List.nil_append, List.cons_append]
      unfold filesParseArgs
      rw [classifyTokens_cons_Rflag, classifyTokens_cons_pos rv rest (hR rv rfl)]
      exact mainLoop_success_tail { d := none, R := some rv, extras := [] } rfl rest hrest
  | some dv =>
    cases Rval with
    | none =>
      simp only [optFlagTokens, List.nil_append, List.cons_append]
      unfold filesParseArgs
      rw [classifyTokens_cons_dflag, classifyTokens_cons_pos dv _ (hd dv rfl)]
      exact mainLoop_success_tail { d := some dv, R := none, extras := [] } rfl rest hrest
    | some rv =>
      simp only [optFlagTokens, List.cons_append, List.nil_append]
      unfold filesParseArgs
      rw [classifyTokens_cons_dflag, classifyTokens_cons_pos dv _ (hd dv rfl),
          classifyTokens_cons_Rflag, classifyTokens_cons_pos rv rest (hR rv rfl)]
      exact mainLoop_success_tail { d := some dv, R := some rv, extras := [] } rfl rest hrest

/-- Witness for the amended C5 theorem at a concrete shape vector:
`-d c0ffee 42 c67f2000` parses to `d = c0ffee` with positionals
`42 c67f2000`. -/
theorem files_parse_accepts_shape_witness :
    filesParseArgs (optFlagTokens "-d" (some "c0ffee") ++
        optFlagTokens "-R" none ++ ["42", "c67f2000"]) =
      ParseOutcome.success
        { d := some "c0ffee", R := none, args := ["42", "c67f2000"] } :=
  files_parse_accepts_shape (some "c0ffee") none ["42", "c67f2000"]
    (by intro v hv; injection hv with h; subst h; decide)
    (by intro v hv; exact Option.noConfusion hv)
    (by intro t ts h; injection h with h1 _; subst h1; decide)

/-- Claim C6: importing the module with a working gdb type lookup runs
to completion, and module-level `FilesCommand()` hands the name
"files" to the `CrashCommand` base constructor exactly once, so the
host ends up with exactly one registered "files" command. -/
theorem files_module_registers_files_once :
    (runFilesModule true).failed = none ∧
    (runFilesModule true).registry = ["files"] ∧
    (runFilesModule true).registry.count "files" = 1 :=
  ⟨rfl, rfl, rfl⟩

/-- Claim C7: the overridden `format_usage` returns the constant usage
string in every parser state, so its value in any two states — whatever
the parser configuration or prior parsing recorded there — is the
same. -/
theorem files_format_usage_constant (s t : ArgumentParserState) :
    format_usage s =
      "files [-d dentry] | [-R reference] [pid | taskp] ...\n" ∧
    format_usage s = format_usage t :=
  ⟨rfl, rfl⟩

/-- Claim C8: the `charp` assignment runs at import time after the
imports and before the class definition, so when the gdb lookup of the
`char` type fails the import raises, the class is never defined, and no
"files" command is registered; with a successful lookup the module
registers it. -/
theorem files_import_requires_type_lookup :
    (runFilesModule false).failed = some "gdb.error: No type named char." ∧
    (runFilesModule false).registry = [] ∧
    (runFilesModule false).bound = ["gdb", "CrashCommand", "argparse", "get_value"] ∧
    "FilesCommand" ∉ (runFilesModule false).bound ∧
    (runFilesModule true).registry = ["files"] :=
  ⟨rfl, rfl, rfl, by decide, rfl⟩

end PyCrashFiles
